import Mathlib

/-!
Shallow embedding of the grasshopper MCP server's execution dispatcher
(`grasshopper_mcp/rhino/connection.py`), configuration
(`grasshopper_mcp/config.py`) and the parametric workflow builder /
materializer (`grasshopper_mcp/tools/advanced_grasshopper.py`), together
with theorems settling the specification claims about them.

Python dynamic behaviour is embedded as follows: Python values appearing
in result dictionaries are `PyVal`; the outcome of `exec`-ing a code
snippet is an `ExecOutcome` oracle (either it terminates with an optional
binding of the name `result`, or it raises with a message and a formatted
traceback); network / filesystem steps are oracles (`SockStep`,
`HttpOutcome`); dictionaries with a fixed key set become structures whose
optional keys are `Option` fields; Python dicts used as ordered maps
become association lists with Python's insertion-order update semantics.
-/

namespace GHMcp

/-- Python values carried in result dictionaries (`None`, booleans,
integers, strings; richer values are not needed by the claims). -/
inductive PyVal where
  | vnone
  | vbool (b : Bool)
  | vint (n : Int)
  | vstr (s : String)
deriving DecidableEq, Repr

/-- Model of Python `str.lower()` (ASCII letters, which is all the
classifier keywords need). -/
def pyLower (s : String) : String := String.mk (s.data.map Char.toLower)

/-- Whether `pre` is a prefix of `l` (helper for substring containment). -/
def listStartsWith : List Char → List Char → Bool
  | [], _ => true
  | _ :: _, [] => false
  | a :: as, b :: bs => a = b && listStartsWith as bs

/-- Whether `needle` occurs as a contiguous sublist of `hay`: models
Python's `needle in hay` on strings, via the character lists. -/
def listContainsSub (needle : List Char) : List Char → Bool
  | [] => listStartsWith needle []
  | c :: rest => listStartsWith needle (c :: rest) || listContainsSub needle rest

/-- Model of Python's `needle in hay` substring test. -/
def pyContains (hay needle : String) : Bool :=
  listContainsSub needle.data hay.data

/-- Accumulator loop for `pySplit` (models Python `str.split(sep)` for a
one-character separator, keeping empty fields exactly as Python does). -/
def pySplitGo (sep : Char) : List Char → List Char → List String
  | acc, [] => [String.mk acc.reverse]
  | acc, c :: rest =>
    if c = sep then String.mk acc.reverse :: pySplitGo sep [] rest
    else pySplitGo sep (c :: acc) rest

/-- Model of Python `s.split(sep)` for a single-character separator. -/
def pySplit (sep : Char) (s : String) : List String :=
  pySplitGo sep [] s.data

/-- Parse a nonempty string of decimal digits, as Python `int()` accepts
(the model rejects anything else, as `int()` raises there; signs and
whitespace tolerated by Python are not needed for the configured ports). -/
def pyParseNat (s : String) : Option Nat :=
  if s.data ≠ [] ∧ s.data.all Char.isDigit then
    some (s.data.foldl (fun acc c => acc * 10 + (c.toNat - '0'.toNat)) 0)
  else none

/-! ## Configuration (`config.py`) -/

/-- The `ServerConfig` dataclass of `config.py`, with the dataclass field
defaults as Lean structure defaults. -/
structure ServerConfig where
  rhino_path : Option String := none
  use_compute_api : Bool := false
  use_rhino3dm : Bool := false
  compute_url : Option String := none
  compute_api_key : Option String := none
  server_name : String := "Grasshopper MCP"
  server_port : Nat := 8080
deriving DecidableEq, Repr

/-- The `ServerConfig.from_env` classmethod: reads the process environment
(modelled as a partial map from variable names to values; `os.getenv(k, d)`
is `(env k).getD d`). Returns `none` when `int()` on `SERVER_PORT` raises. -/
def ServerConfig.from_env (env : String → Option String) : Option ServerConfig :=
  let use_compute := pyLower ((env "USE_COMPUTE_API").getD "false") = "true"
  let use_rhino3dm := pyLower ((env "USE_RHINO3DM").getD "true") = "true"
  (pyParseNat ((env "SERVER_PORT").getD "8080")).map fun port =>
    { rhino_path := env "RHINO_PATH"
      use_compute_api := use_compute
      use_rhino3dm := use_rhino3dm
      compute_url := env "COMPUTE_URL"
      compute_api_key := env "COMPUTE_API_KEY"
      server_name := (env "SERVER_NAME").getD "Grasshopper MCP"
      server_port := port }

/-! ## Result envelopes and backend execution (`rhino/connection.py`) -/

/-- A result dictionary returned by the connection's operations.  Each
optional field models the presence or absence of the corresponding key
(`data`, `error`, `traceback`, `component_id`, `response`, `model`); the
mandatory `result` key is `"success"` or `"error"`. -/
structure RResult where
  result : String
  data : Option PyVal := none
  error : Option String := none
  traceback : Option String := none
  component_id : Option String := none
  response : Option String := none
  model : Option PyVal := none
deriving DecidableEq, Repr

/-- Outcome of `exec(code, globals_dict, locals_dict)`: either the snippet
terminates (with the value bound to the name `result` in `locals_dict`, if
any), or it raises an exception with message `msg` (Python `str(e)`) and
formatted traceback `trace` (`traceback.format_exc()`). -/
inductive ExecOutcome where
  | ok (res : Option PyVal)
  | raises (msg : String) (trace : String)
deriving DecidableEq, Repr

/-- Model of `RhinoConnection._execute_rhino`: run the snippet in the RhinoInside
namespace; on success the envelope's `data` is `locals_dict.get("result",
None)`; on an exception the envelope carries `error` and `traceback`. -/
def execRhino (o : ExecOutcome) : RResult :=
  match o with
  | .ok res => { result := "success", data := some (res.getD .vnone) }
  | .raises msg trace => { result := "error", error := some msg, traceback := some trace }

/-- Model of `RhinoConnection._execute_rhino3dm`: run the snippet in the rhino3dm
namespace; identical to the native path on success, but the exception
branch builds only `{"result": "error", "error": str(e)}` — no traceback. -/
def execRhino3dm (o : ExecOutcome) : RResult :=
  match o with
  | .ok res => { result := "success", data := some (res.getD .vnone) }
  | .raises msg _ => { result := "error", error := some msg }

/-- Outcome of the HTTP POST in `_execute_compute` (and the other compute
endpoints): either a 2xx response whose parsed JSON body is `body`, or an
exception (connection failure, timeout, `raise_for_status`, JSON error). -/
inductive HttpOutcome where
  | ok (body : PyVal)
  | raises (msg : String)
deriving DecidableEq, Repr

/-- Model of `RhinoConnection._execute_compute`: POST to the compute endpoint and
wrap the JSON body as `data`; any exception becomes an error envelope. -/
def execCompute (h : HttpOutcome) : RResult :=
  match h with
  | .ok body => { result := "success", data := some body }
  | .raises msg => { result := "error", error := some msg }

/-! ## The connection / dispatcher (`rhino/connection.py`) -/

/-- A parameter declaration in a script component's input/output list
(dictionaries with `name`, `type`, `description` keys). -/
structure ParamDecl where
  name : String
  type : String
  description : String
deriving DecidableEq, Repr

/-- The state of a `RhinoConnection` relevant to dispatch: its config, the
`connected` flag, the `use_rhino3dm` entry of `rhino_instance` (absent when
the instance was never initialized), the ambient `platform.system() ==
"Windows"` test, and the CodeListener endpoint set in `__init__`. -/
structure RhinoConnection where
  config : ServerConfig
  connected : Bool
  instanceUseRhino3dm : Option Bool
  systemIsWindows : Bool
  codelistener_host : String := "127.0.0.1"
  codelistener_port : Nat := 614
deriving DecidableEq, Repr

/-- Outcome of a public operation at the caller's boundary: either the
coroutine returns a result dictionary, or an exception escapes it. -/
inductive CallOutcome where
  | returns (r : RResult)
  | throws (msg : String)
deriving DecidableEq, Repr

/-- Model of `RhinoConnection.execute_code`: raises `RuntimeError` when not
connected, else dispatches on `use_compute_api` and then on
`rhino_instance.get("use_rhino3dm", False)`.  The snippet / HTTP outcomes
are oracle arguments. -/
def execute_code (conn : RhinoConnection) (o : ExecOutcome) (h : HttpOutcome) : CallOutcome :=
  if conn.connected = false then
    .throws "Not connected to Rhino geometry system"
  else if conn.config.use_compute_api then
    .returns (execCompute h)
  else if conn.instanceUseRhino3dm.getD false then
    .returns (execRhino3dm o)
  else
    .returns (execRhino o)

/-- Model of `RhinoConnection.read_3dm_file`: raises `RuntimeError` when not
connected; on the rhino3dm instance, `File3dm.Read` (oracle `readModel`,
`.error` for a raised exception, `.ok none` for a falsy model) decides the
envelope; otherwise the RhinoInside snippet is executed. -/
def read_3dm_file (conn : RhinoConnection) (file_path : String)
    (readModel : Except String (Option PyVal)) (o : ExecOutcome) : CallOutcome :=
  if conn.connected = false then
    .throws "Not connected to Rhino geometry system"
  else if conn.instanceUseRhino3dm.getD false then
    match readModel with
    | .error e => .returns { result := "error", error := some e }
    | .ok (some m) => .returns { result := "success", model := some m }
    | .ok none => .returns { result := "error", error := some ("Failed to open file: " ++ file_path) }
  else
    .returns (execRhino o)

/-- The error dictionary shared by the four Grasshopper operations when
`connected` is false. -/
def notConnectedEnvelope : RResult :=
  { result := "error", error := some "Not connected to Rhino/Grasshopper" }

/-- Model of `RhinoConnection.create_gh_script_component`: not-connected guard
returns an error envelope; then dispatch on `use_compute_api`, else on
`platform.system() == "Windows" and not rhino_instance.get("use_rhino3dm",
True)`; the two delegate results are oracle arguments, the final branch is
the fixed unsupported-operation envelope. -/
def create_gh_script_component (conn : RhinoConnection) (description : String)
    (inputs outputs : List ParamDecl) (code : String)
    (compute rhinoinside : RResult) : CallOutcome :=
  if conn.connected = false then
    .returns notConnectedEnvelope
  else if conn.config.use_compute_api then
    .returns compute
  else if conn.systemIsWindows && !(conn.instanceUseRhino3dm.getD true) then
    .returns rhinoinside
  else
    .returns { result := "error"
               error := some "Creating Grasshopper components requires RhinoInside or Compute API" }

/-- Model of `RhinoConnection.add_gh_component`: same guard and dispatch structure
as `create_gh_script_component`, with its own unsupported message. -/
def add_gh_component (conn : RhinoConnection) (component_name component_type : String)
    (parameters : List (String × PyVal)) (compute rhinoinside : RResult) : CallOutcome :=
  if conn.connected = false then
    .returns notConnectedEnvelope
  else if conn.config.use_compute_api then
    .returns compute
  else if conn.systemIsWindows && !(conn.instanceUseRhino3dm.getD true) then
    .returns rhinoinside
  else
    .returns { result := "error"
               error := some "Adding Grasshopper components requires RhinoInside or Compute API" }

/-- Model of `RhinoConnection.connect_gh_components`: same guard and dispatch
structure, with its own unsupported message. -/
def connect_gh_components (conn : RhinoConnection)
    (source_id source_param target_id target_param : String)
    (compute rhinoinside : RResult) : CallOutcome :=
  if conn.connected = false then
    .returns notConnectedEnvelope
  else if conn.config.use_compute_api then
    .returns compute
  else if conn.systemIsWindows && !(conn.instanceUseRhino3dm.getD true) then
    .returns rhinoinside
  else
    .returns { result := "error"
               error := some "Connecting Grasshopper components requires RhinoInside or Compute API" }

/-- Model of `RhinoConnection.run_gh_definition`: same guard and dispatch structure,
with its own unsupported message. -/
def run_gh_definition (conn : RhinoConnection) (file_path : Option String)
    (save_output : Bool) (output_path : Option String)
    (compute rhinoinside : RResult) : CallOutcome :=
  if conn.connected = false then
    .returns notConnectedEnvelope
  else if conn.config.use_compute_api then
    .returns compute
  else if conn.systemIsWindows && !(conn.instanceUseRhino3dm.getD true) then
    .returns rhinoinside
  else
    .returns { result := "error"
               error := some "Running Grasshopper definitions requires RhinoInside or Compute API" }

/-! ## The CodeListener socket protocol (`send_code_to_rhino`) -/

/-- Hexadecimal digit character (lowercase, as Python's `json` emits). -/
def hexDigit (n : Nat) : Char :=
  if n < 10 then Char.ofNat ('0'.toNat + n) else Char.ofNat ('a'.toNat + (n - 10))

/-- Four-digit lowercase hexadecimal rendering of `n < 0x10000`. -/
def hex4 (n : Nat) : String :=
  String.mk [hexDigit (n / 4096 % 16), hexDigit (n / 256 % 16), hexDigit (n / 16 % 16), hexDigit (n % 16)]

/-- Escape of one character inside a JSON string literal, as Python's
`json.dumps` with its default `ensure_ascii=True` performs it: the two
mandatory escapes, the five short escapes, `\u00XX` for the remaining
control characters, `\uXXXX` for non-ASCII BMP characters, and a surrogate
pair for astral characters. -/
def jsonEscapeChar (c : Char) : String :=
  if c = '"' then "\\\""
  else if c = '\\' then "\\\\"
  else if c = '\n' then "\\n"
  else if c = '\t' then "\\t"
  else if c = '\r' then "\\r"
  else if c.toNat = 8 then "\\b"
  else if c.toNat = 12 then "\\f"
  else if c.toNat < 0x20 ∨ (0x7f ≤ c.toNat ∧ c.toNat < 0x10000) then "\\u" ++ hex4 c.toNat
  else if 0x10000 ≤ c.toNat then
    "\\u" ++ hex4 (0xd800 + (c.toNat - 0x10000) / 0x400) ++
    "\\u" ++ hex4 (0xdc00 + (c.toNat - 0x10000) % 0x400)
  else String.singleton c

/-- JSON string literal for `s`, as `json.dumps` renders it. -/
def jsonStr (s : String) : String :=
  "\"" ++ String.join (s.data.map jsonEscapeChar) ++ "\""

/-- Values appearing in the flat CodeListener message object. -/
inductive PyFlat where
  | fbool (b : Bool)
  | fstr (s : String)
deriving DecidableEq, Repr

/-- Rendering of one flat value as `json.dumps` does. -/
def jsonFlatVal : PyFlat → String
  | .fbool true => "true"
  | .fbool false => "false"
  | .fstr s => jsonStr s

/-- Model of `json.dumps` on a flat Python dict: insertion-ordered fields, default
separators `", "` and `": "`. -/
def jsonDumps (fields : List (String × PyFlat)) : String :=
  "\x7b" ++ String.intercalate ", " (fields.map fun p => jsonStr p.1 ++ ": " ++ jsonFlatVal p.2) ++ "\x7d"

/-- UTF-8 encoding of one character (the byte values, as naturals). -/
def utf8Char (c : Char) : List Nat :=
  let n := c.toNat
  if n < 0x80 then [n]
  else if n < 0x800 then [0xc0 + n / 0x40, 0x80 + n % 0x40]
  else if n < 0x10000 then [0xe0 + n / 0x1000, 0x80 + n / 0x40 % 0x40, 0x80 + n % 0x40]
  else [0xf0 + n / 0x40000, 0x80 + n / 0x1000 % 0x40, 0x80 + n / 0x40 % 0x40, 0x80 + n % 0x40]

/-- UTF-8 encoding of a string: models Python `s.encode("utf-8")`. -/
def utf8 (s : String) : List Nat :=
  (s.data.map utf8Char).flatten

/-- One socket API action performed by `send_code_to_rhino`, in the order
the code attempts them (an action is recorded even when it raises). -/
inductive SockAction where
  | settimeout (secs : Nat)
  | connect (host : String) (port : Nat)
  | sendall (payload : List Nat)
  | recv (bufsize : Nat)
  | close
deriving DecidableEq, Repr

/-- Outcome of one fallible step inside `send_code_to_rhino`. -/
inductive SockStep where
  | ok
  | fails (msg : String)
deriving DecidableEq, Repr

/-- Oracle environment for one `send_code_to_rhino` call: the path
`tempfile.mkstemp` returns, the outcome of writing the code to it, of
`sock.connect`, `sock.sendall` and `sock.recv`, and the decoded response
text on a successful receive. -/
structure SendEnv where
  tempPath : String
  writeStep : SockStep
  connectStep : SockStep
  sendStep : SockStep
  recvStep : SockStep
  response : String
deriving DecidableEq, Repr

/-- The CodeListener message dict built by `send_code_to_rhino`:
`{"filename": temp_path, "run": True, "reset": False, "temp": True}`. -/
def codeListenerMsg (tempPath : String) : List (String × PyFlat) :=
  [("filename", .fstr tempPath), ("run", .fbool true), ("reset", .fbool false), ("temp", .fbool true)]

/-- Model of `RhinoConnection.send_code_to_rhino`, as a transformer on the
filesystem (the list of existing paths) that also returns the envelope and
the trace of socket actions attempted.  `mkstemp` creates `env.tempPath`;
the `finally` block unlinks it on every exit from the inner `try`; the
outer `except` turns any exception into an error envelope; the socket is
closed only on the all-success path, exactly as in the source. -/
def send_code_to_rhino (conn : RhinoConnection) (code : String) (env : SendEnv)
    (fs : List String) : RResult × List String × List SockAction :=
  let fs1 := env.tempPath :: fs
  let fsFinal := fs1.erase env.tempPath
  match env.writeStep with
  | .fails m => ({ result := "error", error := some m }, fsFinal, [])
  | .ok =>
    let json_msg := jsonDumps (codeListenerMsg env.tempPath)
    let t0 : List SockAction :=
      [.settimeout 10, .connect conn.codelistener_host conn.codelistener_port]
    match env.connectStep with
    | .fails m => ({ result := "error", error := some m }, fsFinal, t0)
    | .ok =>
      let t1 := t0 ++ [.sendall (utf8 json_msg)]
      match env.sendStep with
      | .fails m => ({ result := "error", error := some m }, fsFinal, t1)
      | .ok =>
        let t2 := t1 ++ [.recv 4096]
        match env.recvStep with
        | .fails m => ({ result := "error", error := some m }, fsFinal, t2)
        | .ok =>
          ({ result := "success", response := some env.response }, fsFinal, t2 ++ [.close])

/-! ## Workflow model and builder (`tools/advanced_grasshopper.py`) -/

/-- A parameter-node spec in `workflow["parameters"]`: the component kind
and the entry stored under `"value"` (kept optional to model `.get`). -/
structure WParam where
  component : String
  value : Option PyVal
deriving DecidableEq, Repr

/-- A processing-node spec in `workflow["components"]`: component kind and
category type. -/
structure WComponent where
  component : String
  type : String
deriving DecidableEq, Repr

/-- A script-node spec in `workflow["scripts"]`. -/
structure WScript where
  inputs : List ParamDecl
  outputs : List ParamDecl
  code : String
deriving DecidableEq, Repr

/-- A graph edge in `workflow["connections"]`: the raw `"Node.Param"`
strings under the `"from"` and `"to"` keys. -/
structure WConnection where
  cfrom : String
  cto : String
deriving DecidableEq, Repr

/-- The workflow dictionary built by `generate_grasshopper_workflow`:
insertion-ordered maps for parameters / components / scripts, the ordered
connection list, and the `"result"` entry (always `"success"`). -/
structure Workflow where
  parameters : List (String × WParam)
  components : List (String × WComponent)
  scripts : List (String × WScript)
  connections : List WConnection
  result : String := "success"
deriving DecidableEq, Repr

/-- Python `parameters.get(k, d)` on the caller-supplied parameter dict. -/
def pyGet (ps : List (String × PyVal)) (k : String) (d : PyVal) : PyVal :=
  (ps.lookup k).getD d

/-- The box/cube template of `generate_grasshopper_workflow`. -/
def boxWorkflow (ps : List (String × PyVal)) : Workflow :=
  { parameters :=
      [("Width", { component := "Number Slider", value := some (pyGet ps "Width" (.vint 10)) }),
       ("Height", { component := "Number Slider", value := some (pyGet ps "Height" (.vint 10)) }),
       ("Depth", { component := "Number Slider", value := some (pyGet ps "Depth" (.vint 10)) })]
    components :=
      [("BoxOrigin", { component := "Construct Point", type := "Vector" }),
       ("Box", { component := "Box", type := "Surface" })]
    scripts := []
    connections :=
      [{ cfrom := "Width.output", cto := "Box.X Size" },
       { cfrom := "Height.output", cto := "Box.Y Size" },
       { cfrom := "Depth.output", cto := "Box.Z Size" },
       { cfrom := "BoxOrigin.Point", cto := "Box.Base Point" }] }

/-- The cylinder template of `generate_grasshopper_workflow`. -/
def cylinderWorkflow (ps : List (String × PyVal)) : Workflow :=
  { parameters :=
      [("Radius", { component := "Number Slider", value := some (pyGet ps "Radius" (.vint 5)) }),
       ("Height", { component := "Number Slider", value := some (pyGet ps "Height" (.vint 20)) })]
    components :=
      [("BasePoint", { component := "Construct Point", type := "Vector" }),
       ("Circle", { component := "Circle", type := "Curve" }),
       ("Cylinder", { component := "Extrude", type := "Surface" })]
    scripts := []
    connections :=
      [{ cfrom := "Radius.output", cto := "Circle.Radius" },
       { cfrom := "BasePoint.Point", cto := "Circle.Base" },
       { cfrom := "Circle.Circle", cto := "Cylinder.Base" },
       { cfrom := "Height.output", cto := "Cylinder.Direction" }] }

/-- The Python source of the loft template's `HeightVector` script. -/
def heightVectorCode : String :=
  "\nimport Rhino.Geometry as rg\n\n# Create a vertical vector for the height\nvector = rg.Vector3d(0, 0, height)\n"

/-- The loft/surface template of `generate_grasshopper_workflow`. -/
def loftWorkflow (ps : List (String × PyVal)) : Workflow :=
  { parameters :=
      [("Points", { component := "Number Slider", value := some (pyGet ps "Points" (.vint 5)) }),
       ("Height", { component := "Number Slider", value := some (pyGet ps "Height" (.vint 20)) }),
       ("RadiusBottom", { component := "Number Slider", value := some (pyGet ps "RadiusBottom" (.vint 10)) }),
       ("RadiusTop", { component := "Number Slider", value := some (pyGet ps "RadiusTop" (.vint 5)) })]
    components :=
      [("BasePoint", { component := "Construct Point", type := "Vector" }),
       ("TopPoint", { component := "Construct Point", type := "Vector" }),
       ("CircleBottom", { component := "Circle", type := "Curve" }),
       ("CircleTop", { component := "Circle", type := "Curve" }),
       ("Loft", { component := "Loft", type := "Surface" })]
    scripts :=
      [("HeightVector",
        { inputs := [{ name := "height", type := "float", description := "Height of the loft" }]
          outputs := [{ name := "vector", type := "vector", description := "Height vector" }]
          code := heightVectorCode })]
    connections :=
      [{ cfrom := "Height.output", cto := "HeightVector.height" },
       { cfrom := "HeightVector.vector", cto := "TopPoint.Z" },
       { cfrom := "RadiusBottom.output", cto := "CircleBottom.Radius" },
       { cfrom := "RadiusTop.output", cto := "CircleTop.Radius" },
       { cfrom := "BasePoint.Point", cto := "CircleBottom.Base" },
       { cfrom := "TopPoint.Point", cto := "CircleTop.Base" },
       { cfrom := "CircleBottom.Circle", cto := "Loft.Curves" },
       { cfrom := "CircleTop.Circle", cto := "Loft.Curves" }] }

/-- The Python source of the generic template's `CustomGeometry` script. -/
def customGeometryCode : String :=
  "\nimport Rhino.Geometry as rg\nimport math\n\n# Create custom geometry based on parameters\npoint = rg.Point3d(0, 0, 0)\nradius = param1\nheight = param2\n\n# Default to a simple cylinder if nothing specific is mentioned\ncylinder = rg.Cylinder(\n    new rg.Circle(point, radius),\n    height\n)\n\ngeometry = cylinder.ToBrep(True, True)\n"

/-- The generic fallback template of `generate_grasshopper_workflow`. -/
def genericWorkflow (ps : List (String × PyVal)) : Workflow :=
  { parameters :=
      [("Parameter1", { component := "Number Slider", value := some (pyGet ps "Parameter1" (.vint 10)) }),
       ("Parameter2", { component := "Number Slider", value := some (pyGet ps "Parameter2" (.vint 20)) })]
    components := []
    scripts :=
      [("CustomGeometry",
        { inputs :=
            [{ name := "param1", type := "float", description := "First parameter" },
             { name := "param2", type := "float", description := "Second parameter" }]
          outputs := [{ name := "geometry", type := "geometry", description := "Resulting geometry" }]
          code := customGeometryCode })]
    connections :=
      [{ cfrom := "Parameter1.output", cto := "CustomGeometry.param1" },
       { cfrom := "Parameter2.output", cto := "CustomGeometry.param2" }] }

/-- Model of `generate_grasshopper_workflow`: lowercase the description, then the
`if`/`elif` keyword chain selects the template (box/cube, then cylinder,
then loft/surface, else the generic fallback). -/
def generate_grasshopper_workflow (description : String)
    (parameters : List (String × PyVal)) : Workflow :=
  let description_lower := pyLower description
  if pyContains description_lower "box" || pyContains description_lower "cube" then
    boxWorkflow parameters
  else if pyContains description_lower "cylinder" then
    cylinderWorkflow parameters
  else if pyContains description_lower "loft" || pyContains description_lower "surface" then
    loftWorkflow parameters
  else
    genericWorkflow parameters

/-! ## Workflow materialization (`create_parametric_definition`) -/

/-- One call the tool makes on the rhino connection while materializing a
workflow (the four awaited connection methods, with their arguments). -/
inductive GhCall where
  | addComponent (component_name component_type : String) (parameters : List (String × PyVal))
  | createScript (description : String) (inputs outputs : List ParamDecl) (code : String)
  | connectComponents (source_id source_param target_id target_param : String)
  | runDefinition (file_path : Option String) (save_output : Bool) (output_path : Option String)
deriving DecidableEq, Repr

/-- Overall outcome of the tool coroutine: it returns a string, or an
exception escapes it. -/
inductive CpOut where
  | ret (s : String)
  | raised (msg : String)
deriving DecidableEq, Repr

/-- Python dict assignment `m[k] = v`: overwrite in place when the key
exists, else append (insertion order preserved). -/
def dictSet (m : List (String × String)) (k v : String) : List (String × String) :=
  if (m.lookup k).isSome then m.map (fun p => if p.1 = k then (k, v) else p)
  else m ++ [(k, v)]

/-- Python truth test on `component_ids.get(name)`: falsy when the key is
absent (`None`) or the stored id is the empty string. -/
def isFalsy : Option String → Bool
  | none => true
  | some s => s = ""

/-- Exception text for `result["error"]` on a dict without that key. -/
def keyErrorError : String := "KeyError: 'error'"

/-- Exception text for `result["component_id"]` on a dict without it. -/
def keyErrorComponentId : String := "KeyError: 'component_id'"

/-- The parameter-component loop of `create_parametric_definition`: for
each entry an `add_gh_component(component, "Params", {NickName, Value})`
call; a backend `"error"` result returns the phase-prefixed message; on
success the returned `component_id` is stored under the parameter name. -/
def materializeParams (backend : GhCall → RResult) :
    List (String × WParam) → List (String × String) →
    List GhCall × Except CpOut (List (String × String))
  | [], ids => ([], .ok ids)
  | (name, info) :: rest, ids =>
    let call := GhCall.addComponent info.component "Params"
      [("NickName", .vstr name), ("Value", info.value.getD .vnone)]
    let r := backend call
    if r.result = "error" then
      match r.error with
      | some e => ([call], .error (.ret ("Error creating parameter component: " ++ e)))
      | none => ([call], .error (.raised keyErrorError))
    else
      match r.component_id with
      | some cid =>
        let rest_out := materializeParams backend rest (dictSet ids name cid)
        (call :: rest_out.1, rest_out.2)
      | none => ([call], .error (.raised keyErrorComponentId))

/-- The processing-component loop: `add_gh_component(component, type,
{NickName})` per entry, same error and id-recording discipline. -/
def materializeComponents (backend : GhCall → RResult) :
    List (String × WComponent) → List (String × String) →
    List GhCall × Except CpOut (List (String × String))
  | [], ids => ([], .ok ids)
  | (name, info) :: rest, ids =>
    let call := GhCall.addComponent info.component info.type [("NickName", .vstr name)]
    let r := backend call
    if r.result = "error" then
      match r.error with
      | some e => ([call], .error (.ret ("Error creating component: " ++ e)))
      | none => ([call], .error (.raised keyErrorError))
    else
      match r.component_id with
      | some cid =>
        let rest_out := materializeComponents backend rest (dictSet ids name cid)
        (call :: rest_out.1, rest_out.2)
      | none => ([call], .error (.raised keyErrorComponentId))

/-- The script-component loop: `create_gh_script_component(name, inputs,
outputs, code)` per entry, same error and id-recording discipline. -/
def materializeScripts (backend : GhCall → RResult) :
    List (String × WScript) → List (String × String) →
    List GhCall × Except CpOut (List (String × String))
  | [], ids => ([], .ok ids)
  | (name, info) :: rest, ids =>
    let call := GhCall.createScript name info.inputs info.outputs info.code
    let r := backend call
    if r.result = "error" then
      match r.error with
      | some e => ([call], .error (.ret ("Error creating script component: " ++ e)))
      | none => ([call], .error (.raised keyErrorError))
    else
      match r.component_id with
      | some cid =>
        let rest_out := materializeScripts backend rest (dictSet ids name cid)
        (call :: rest_out.1, rest_out.2)
      | none => ([call], .error (.raised keyErrorComponentId))

/-- The connection loop: split each endpoint on `"."`, look both node
names up in `component_ids`; a falsy lookup makes the loop `continue`
without any backend call; otherwise `source[1]` / `target[1]` are read
(an `IndexError` escapes when an endpoint has no `"."`) and
`connect_gh_components` is called, a backend `"error"` result returning
the phase-prefixed message. -/
def materializeConnections (backend : GhCall → RResult)
    (ids : List (String × String)) :
    List WConnection → List GhCall × Option CpOut
  | [] => ([], none)
  | c :: rest =>
    let source := pySplit '.' c.cfrom
    let target := pySplit '.' c.cto
    let source_id := ids.lookup (source.getD 0 "")
    let target_id := ids.lookup (target.getD 0 "")
    if isFalsy source_id || isFalsy target_id then
      materializeConnections backend ids rest
    else if source.length < 2 || target.length < 2 then
      ([], some (.raised "IndexError: list index out of range"))
    else
      let call := GhCall.connectComponents (source_id.getD "") (source.getD 1 "")
        (target_id.getD "") (target.getD 1 "")
      let r := backend call
      if r.result = "error" then
        match r.error with
        | some e => ([call], some (.ret ("Error connecting components: " ++ e)))
        | none => ([call], some (.raised keyErrorError))
      else
        let rest_out := materializeConnections backend ids rest
        (call :: rest_out.1, rest_out.2)

/-- The `Saved to:` fragment of the tool's success message (Python's
`output_file if output_file else 'Not saved to file'`, a falsy test). -/
def savedToText : Option String → String
  | none => "Not saved to file"
  | some f => if f = "" then "Not saved to file" else f

/-- The tool's final success message. -/
def successMsg (description : String) (nIds nParams : Nat) (output_file : Option String) : String :=
  "Successfully created parametric Grasshopper definition:\n- Description: " ++ description ++
  "\n- Components: " ++ toString nIds ++ " created\n- Parameters: " ++ toString nParams ++
  "\n- Saved to: " ++ savedToText output_file ++ "\n"

/-- The materialization part of `create_parametric_definition` (everything
after the workflow is generated): parameters, then components, then
scripts, then connections, then `run_gh_definition()`, then the optional
saving run.  Returns the full trace of backend calls made and the tool's
outcome. -/
def materializeWorkflow (backend : GhCall → RResult) (description : String)
    (w : Workflow) (output_file : Option String) : List GhCall × CpOut :=
  match materializeParams backend w.parameters [] with
  | (t1, .error out) => (t1, out)
  | (t1, .ok ids1) =>
    match materializeComponents backend w.components ids1 with
    | (t2, .error out) => (t1 ++ t2, out)
    | (t2, .ok ids2) =>
      match materializeScripts backend w.scripts ids2 with
      | (t3, .error out) => (t1 ++ t2 ++ t3, out)
      | (t3, .ok ids3) =>
        match materializeConnections backend ids3 w.connections with
        | (t4, some out) => (t1 ++ t2 ++ t3 ++ t4, out)
        | (t4, none) =>
          let runCall := GhCall.runDefinition none false none
          let r := backend runCall
          let tr := t1 ++ t2 ++ t3 ++ t4 ++ [runCall]
          if r.result = "error" then
            match r.error with
            | some e => (tr, .ret ("Error running definition: " ++ e))
            | none => (tr, .raised keyErrorError)
          else if (output_file.getD "") = "" then
            (tr, .ret (successMsg description ids3.length w.parameters.length output_file))
          else
            let saveCall := GhCall.runDefinition none true output_file
            let rs := backend saveCall
            let tr2 := tr ++ [saveCall]
            if rs.result = "error" then
              match rs.error with
              | some e => (tr2, .ret ("Error saving definition: " ++ e))
              | none => (tr2, .raised keyErrorError)
            else
              (tr2, .ret (successMsg description ids3.length w.parameters.length output_file))

/-- The whole `create_parametric_definition` tool: generate the workflow
from the description, check its (always-`"success"`) `result` entry, then
materialize.  In the dead error branch the f-string's `workflow['error']`
lookup would raise, since the builder's dict has no `error` key. -/
def create_parametric_definition (backend : GhCall → RResult) (description : String)
    (parameters : List (String × PyVal)) (output_file : Option String) :
    List GhCall × CpOut :=
  let workflow := generate_grasshopper_workflow description parameters
  if workflow.result = "error" then ([], .raised keyErrorError)
  else materializeWorkflow backend description workflow output_file

/-! ## Derived notions used by the theorems -/

/-- The backend call the parameter loop makes for one parameter entry. -/
def paramCall (p : String × WParam) : GhCall :=
  .addComponent p.2.component "Params" [("NickName", .vstr p.1), ("Value", p.2.value.getD .vnone)]

/-- The backend call the component loop makes for one component entry. -/
def compCall (p : String × WComponent) : GhCall :=
  .addComponent p.2.component p.2.type [("NickName", .vstr p.1)]

/-- The backend call the script loop makes for one script entry. -/
def scriptCall (p : String × WScript) : GhCall :=
  .createScript p.1 p.2.inputs p.2.outputs p.2.code

/-- A parameter entry paired with its backend call. -/
def paramEntry (p : String × WParam) : String × GhCall := (p.1, paramCall p)

/-- A component entry paired with its backend call. -/
def compEntry (p : String × WComponent) : String × GhCall := (p.1, compCall p)

/-- A script entry paired with its backend call. -/
def scriptEntry (p : String × WScript) : String × GhCall := (p.1, scriptCall p)

/-- All node entries of a workflow, in materialization order. -/
def nodeEntries (w : Workflow) : List (String × GhCall) :=
  w.parameters.map paramEntry ++ w.components.map compEntry ++ w.scripts.map scriptEntry

/-- The node names of a workflow (parameters, components, scripts). -/
def nodeNames (w : Workflow) : List String :=
  w.parameters.map Prod.fst ++ w.components.map Prod.fst ++ w.scripts.map Prod.fst

/-- The component id a backend response carries (empty when absent). -/
def bid (backend : GhCall → RResult) (g : GhCall) : String :=
  ((backend g).component_id).getD ""

/-- The `component_ids` map after recording the given node entries on top
of `ids`, each under its name with the id its backend call returned. -/
def idsAfter (backend : GhCall → RResult) (entries : List (String × GhCall))
    (ids : List (String × String)) : List (String × String) :=
  entries.foldl (fun m p => dictSet m p.1 (bid backend p.2)) ids

/-- The connect call that one workflow connection resolves to under the
given `component_ids` map, or `none` when either endpoint's node name
looks up falsy (the loop's `continue` case). -/
def resolveCall (ids : List (String × String)) (c : WConnection) : Option GhCall :=
  let source := pySplit '.' c.cfrom
  let target := pySplit '.' c.cto
  let source_id := ids.lookup (source.getD 0 "")
  let target_id := ids.lookup (target.getD 0 "")
  if isFalsy source_id || isFalsy target_id then none
  else some (.connectComponents (source_id.getD "") (source.getD 1 "")
    (target_id.getD "") (target.getD 1 ""))

/-- The phase prefixes of the tool's fail-fast error messages. -/
def errPrefixTexts : List String :=
  ["Error creating parameter component: ", "Error creating component: ",
   "Error creating script component: ", "Error connecting components: ",
   "Error running definition: ", "Error saving definition: "]

/-- The full socket action sequence of a successful
`send_code_to_rhino` call. -/
def expectedSockTrace (conn : RhinoConnection) (tempPath : String) : List SockAction :=
  [.settimeout 10, .connect conn.codelistener_host conn.codelistener_port,
   .sendall (utf8 (jsonDumps (codeListenerMsg tempPath))), .recv 4096, .close]

/-! ## Concrete instances used by witnesses and counterexamples -/

/-- A connection that was never initialized (`connected=False`). -/
def disconnectedConn : RhinoConnection :=
  { config := {}, connected := false, instanceUseRhino3dm := none, systemIsWindows := false }

/-- A connected rhino3dm-backed connection (the default macOS setup). -/
def connectedConn : RhinoConnection :=
  { config := { use_rhino3dm := true }, connected := true
    instanceUseRhino3dm := some true, systemIsWindows := false }

/-- A send environment in which every step succeeds. -/
def allOkSendEnv : SendEnv :=
  { tempPath := "/tmp/tmpabc.py", writeStep := .ok, connectStep := .ok
    sendStep := .ok, recvStep := .ok, response := "Run script completed" }

/-- The concrete builder input of the box round-trip check. -/
def boxDescription : String := "Create a box 10x20x30"

/-- The concrete parameter dict of the box round-trip check. -/
def boxParams : List (String × PyVal) :=
  [("Width", .vint 10), ("Height", .vint 20), ("Depth", .vint 30)]

/-- A small workflow whose second connection references the nonexistent
node name `Ghost`. -/
def danglingWorkflow : Workflow :=
  { parameters := [("Width", { component := "Number Slider", value := some (.vint 10) })]
    components := [("Box", { component := "Box", type := "Surface" })]
    scripts := []
    connections :=
      [{ cfrom := "Width.output", cto := "Box.X Size" },
       { cfrom := "Ghost.output", cto := "Box.Y Size" }] }

/-- A backend on which every call succeeds and returns a component id. -/
def okBackend : GhCall → RResult :=
  fun _ => { result := "success", component_id := some "cid", data := some .vnone }

/-- A backend that fails exactly on `run_gh_definition` calls. -/
def failingBackend : GhCall → RResult :=
  fun g =>
    match g with
    | .runDefinition _ _ _ => { result := "error", error := some "No active Grasshopper canvas" }
    | _ => { result := "success", component_id := some "cid" }

/-! ## Claim theorems -/

/-- C9: on both Embedded execution paths (native RhinoInside and portable
rhino3dm), a snippet that terminates without binding a variable named
`result` yields a success envelope whose `data` field is `None`, not an
error. -/
theorem C9_missing_result_binding_is_null_success :
    execRhino (.ok none) = { result := "success", data := some .vnone } ∧
    execRhino3dm (.ok none) = { result := "success", data := some .vnone } :=
  ⟨rfl, rfl⟩

/-- C10: a configuration built from an environment in which `USE_RHINO3DM`
is unset has `use_rhino3dm = true`, even though the dataclass field
default is `false`; when the variable is set, the flag is `false` exactly
when the value does not lower-case to `"true"`. -/
theorem C10_use_rhino3dm_env_default (env : String → Option String) (cfg : ServerConfig)
    (h : ServerConfig.from_env env = some cfg) :
    ({} : ServerConfig).use_rhino3dm = false ∧
    (env "USE_RHINO3DM" = none → cfg.use_rhino3dm = true) ∧
    (∀ v, env "USE_RHINO3DM" = some v → (cfg.use_rhino3dm = false ↔ ¬ pyLower v = "true")) := by
  unfold ServerConfig.from_env at h
  rcases hp : pyParseNat ((env "SERVER_PORT").getD "8080") with _ | port <;> rw [hp] at h
  · simp at h
  · simp only [Option.map_some] at h
    obtain rfl : _ = cfg := Option.some.inj h
    refine ⟨rfl, ?_, ?_⟩
    · intro h0
      simp [h0]
      decide
    · intro v hv
      simp [hv]

/-- C10 witness: the concrete environment with every variable unset gives
`use_rhino3dm = true`, while the declared dataclass default is `false`. -/
theorem C10_witness :
    ({} : ServerConfig).use_rhino3dm = false ∧
    ∃ cfg, ServerConfig.from_env (fun _ => none) = some cfg ∧ cfg.use_rhino3dm = true := by
  have h := C10_use_rhino3dm_env_default (fun _ => none)
    { use_rhino3dm := true, server_port := 8080 } (by decide)
  exact ⟨h.1, ⟨_, by decide, h.2.1 rfl⟩⟩

/-- C2 counterexample: on the portable rhino3dm embedded path, a raising
snippet produces an error envelope with no `traceback` key at all, so the
claim's non-empty trace for both Embedded paths fails. -/
theorem C2_counterexample :
    (execRhino3dm (.raises "boom" "Traceback (most recent call last):\nboom")).traceback = none :=
  rfl

/-- C2 amended: every backend turns a raising execution into an error
envelope carrying the exception's message (non-empty when the message
is); the native RhinoInside path alone additionally carries the formatted
traceback, while the rhino3dm path (like HTTP) carries none. -/
theorem C2_amended (msg trace : String) (hmsg : msg ≠ "") (htrace : trace ≠ "") :
    ((execRhino (.raises msg trace)).result = "error" ∧
     (execRhino (.raises msg trace)).error = some msg ∧
     (execRhino (.raises msg trace)).traceback = some trace) ∧
    ((execRhino3dm (.raises msg trace)).result = "error" ∧
     (execRhino3dm (.raises msg trace)).error = some msg ∧
     (execRhino3dm (.raises msg trace)).traceback = none) ∧
    ((execCompute (.raises msg)).result = "error" ∧
     (execCompute (.raises msg)).error = some msg) ∧
    msg ≠ "" ∧ trace ≠ "" :=
  ⟨⟨rfl, rfl, rfl⟩, ⟨rfl, rfl, rfl⟩, ⟨rfl, rfl⟩, hmsg, htrace⟩

/-- C2 witness: the amended statement at a concrete raising execution. -/
theorem C2_witness :
    ((execRhino (.raises "boom" "Traceback (most recent call last):\nValueError: boom")).result = "error" ∧
     (execRhino (.raises "boom" "Traceback (most recent call last):\nValueError: boom")).error = some "boom" ∧
     (execRhino (.raises "boom" "Traceback (most recent call last):\nValueError: boom")).traceback =
       some "Traceback (most recent call last):\nValueError: boom") ∧
    ((execRhino3dm (.raises "boom" "Traceback (most recent call last):\nValueError: boom")).result = "error" ∧
     (execRhino3dm (.raises "boom" "Traceback (most recent call last):\nValueError: boom")).error = some "boom" ∧
     (execRhino3dm (.raises "boom" "Traceback (most recent call last):\nValueError: boom")).traceback = none) ∧
    ((execCompute (.raises "boom")).result = "error" ∧
     (execCompute (.raises "boom")).error = some "boom") ∧
    "boom" ≠ "" ∧ "Traceback (most recent call last):\nValueError: boom" ≠ "" :=
  C2_amended "boom" "Traceback (most recent call last):\nValueError: boom" (by decide) (by decide)

/-- C1 counterexample: `execute_code` on a disconnected connection raises
`RuntimeError` past the operation boundary instead of returning a
NotConnected error envelope. -/
theorem C1_counterexample :
    execute_code disconnectedConn (.ok none) (.ok .vnone) =
      .throws "Not connected to Rhino geometry system" :=
  rfl

/-- C1 amended: with `connected = false`, the four Grasshopper operations
(`create_gh_script_component`, `add_gh_component`, `connect_gh_components`,
`run_gh_definition`) return the NotConnected error envelope without
raising, but `execute_code` and `read_3dm_file` instead raise
`RuntimeError("Not connected to Rhino geometry system")`. -/
theorem C1_amended (conn : RhinoConnection) (h : conn.connected = false) :
    (∀ o hb, execute_code conn o hb = .throws "Not connected to Rhino geometry system") ∧
    (∀ fp rm o, read_3dm_file conn fp rm o = .throws "Not connected to Rhino geometry system") ∧
    (∀ d inp out c cr ri,
      create_gh_script_component conn d inp out c cr ri = .returns notConnectedEnvelope) ∧
    (∀ cn ct ps cr ri, add_gh_component conn cn ct ps cr ri = .returns notConnectedEnvelope) ∧
    (∀ a b c d cr ri, connect_gh_components conn a b c d cr ri = .returns notConnectedEnvelope) ∧
    (∀ fp so op cr ri, run_gh_definition conn fp so op cr ri = .returns notConnectedEnvelope) := by
  refine ⟨?_, ?_, ?_, ?_, ?_, ?_⟩ <;> intros <;>
    simp [execute_code, read_3dm_file, create_gh_script_component, add_gh_component,
      connect_gh_components, run_gh_definition, h]

/-- C1 witness: the amended statement's envelope branch at a concrete
disconnected connection and concrete arguments. -/
theorem C1_witness :
    disconnectedConn.connected = false ∧
    add_gh_component disconnectedConn "Number Slider" "Params" [] { result := "success" }
      { result := "success" } = .returns notConnectedEnvelope :=
  ⟨rfl, (C1_amended disconnectedConn rfl).2.2.2.1 "Number Slider" "Params" []
    { result := "success" } { result := "success" }⟩

/-- C7: for every description and parameter dict the builder totally
returns a workflow whose `result` entry is `"success"`, selecting exactly
one template by case-insensitive containment in priority order box/cube,
then cylinder, then loft/surface, with the generic fallback otherwise. -/
theorem C7_template_selection (description : String) (ps : List (String × PyVal)) :
    (generate_grasshopper_workflow description ps).result = "success" ∧
    generate_grasshopper_workflow description ps =
      (if pyContains (pyLower description) "box" || pyContains (pyLower description) "cube" then
        boxWorkflow ps
      else if pyContains (pyLower description) "cylinder" then
        cylinderWorkflow ps
      else if pyContains (pyLower description) "loft" || pyContains (pyLower description) "surface" then
        loftWorkflow ps
      else
        genericWorkflow ps) := by
  refine ⟨?_, rfl⟩
  unfold generate_grasshopper_workflow
  dsimp only
  split_ifs <;> rfl

/-- C8: the builder applied to "Create a box 10x20x30" with parameters
Width=10, Height=20, Depth=30 yields parameter names exactly Width,
Height, Depth, a Box component node, and exactly 4 connections whose
endpoint node names all occur among the parameter and component names. -/
theorem C8_box_round_trip :
    (generate_grasshopper_workflow boxDescription boxParams).parameters.map Prod.fst =
      ["Width", "Height", "Depth"] ∧
    ((generate_grasshopper_workflow boxDescription boxParams).components.map Prod.fst).contains
      "Box" = true ∧
    (generate_grasshopper_workflow boxDescription boxParams).connections.length = 4 ∧
    ((generate_grasshopper_workflow boxDescription boxParams).connections.all fun c =>
      (((generate_grasshopper_workflow boxDescription boxParams).parameters.map Prod.fst ++
        (generate_grasshopper_workflow boxDescription boxParams).components.map Prod.fst).contains
        ((pySplit '.' c.cfrom).getD 0 "")) &&
      (((generate_grasshopper_workflow boxDescription boxParams).parameters.map Prod.fst ++
        (generate_grasshopper_workflow boxDescription boxParams).components.map Prod.fst).contains
        ((pySplit '.' c.cto).getD 0 ""))) = true := by
  refine ⟨?_, ?_, ?_, ?_⟩ <;> decide

/-- C3: once `mkstemp` has created the temporary file, `send_code_to_rhino`
removes it from the filesystem before returning, on the success path and
on every failure path (write, connect, send or receive error). -/
theorem C3_temp_file_always_removed (conn : RhinoConnection) (code : String) (env : SendEnv)
    (fs : List String) (hfresh : env.tempPath ∉ fs) :
    env.tempPath ∉ (send_code_to_rhino conn code env fs).2.1 := by
  obtain ⟨tp, ws, cs, ss, rs, resp⟩ := env
  have herase : (tp :: fs).erase tp = fs := List.erase_cons_head tp fs
  cases ws <;> cases cs <;> cases ss <;> cases rs <;>
    simp only [send_code_to_rhino, herase] <;> exact hfresh

/-- C3 witness: a concrete all-success call on an initially empty
filesystem leaves the temporary file absent. -/
theorem C3_witness :
    "/tmp/tmpabc.py" ∉ ([] : List String) ∧
    "/tmp/tmpabc.py" ∉ (send_code_to_rhino connectedConn "print(1)" allOkSendEnv []).2.1 :=
  ⟨List.not_mem_nil _,
   C3_temp_file_always_removed connectedConn "print(1)" allOkSendEnv [] (List.not_mem_nil _)⟩

/-- C4: the socket actions of `send_code_to_rhino` are always a prefix of
the canonical sequence (timeout 10, connect to the CodeListener endpoint,
a single `sendall` of the UTF-8 encoded JSON message `{"filename":
temp_path, "run": true, "reset": false, "temp": true}`, one `recv` of at
most 4096 bytes, close), and when every step succeeds they are exactly
that sequence, the decoded read being returned as the `response`. -/
theorem C4_socket_protocol (conn : RhinoConnection) (code : String) (env : SendEnv)
    (fs : List String) :
    List.IsPrefix (send_code_to_rhino conn code env fs).2.2
      (expectedSockTrace conn env.tempPath) ∧
    (env.writeStep = .ok → env.connectStep = .ok → env.sendStep = .ok → env.recvStep = .ok →
      (send_code_to_rhino conn code env fs).2.2 = expectedSockTrace conn env.tempPath ∧
      (send_code_to_rhino conn code env fs).1 =
        { result := "success", response := some env.response }) := by
  obtain ⟨tp, ws, cs, ss, rs, resp⟩ := env
  cases ws <;> cases cs <;> cases ss <;> cases rs <;> refine ⟨⟨_, rfl⟩, ?_⟩ <;>
    intro h1 h2 h3 h4 <;>
    first
      | exact ⟨rfl, rfl⟩
      | exact SockStep.noConfusion h1
      | exact SockStep.noConfusion h2
      | exact SockStep.noConfusion h3
      | exact SockStep.noConfusion h4

/-- C4 witness: the all-success branch of the protocol theorem at a
concrete call. -/
theorem C4_witness :
    (send_code_to_rhino connectedConn "print(1)" allOkSendEnv []).2.2 =
      expectedSockTrace connectedConn "/tmp/tmpabc.py" ∧
    (send_code_to_rhino connectedConn "print(1)" allOkSendEnv []).1 =
      { result := "success", response := some "Run script completed" } :=
  (C4_socket_protocol connectedConn "print(1)" allOkSendEnv []).2 rfl rfl rfl rfl

/-! ### Association-list lemmas for the `component_ids` dict -/

/-- Overwriting key `k` leaves lookups of other keys unchanged (map case
of `dictSet`). -/
theorem lookup_map_overwrite (k v k' : String) (h : k' ≠ k) :
    ∀ m : List (String × String),
      (m.map fun p => if p.1 = k then (k, v) else p).lookup k' = m.lookup k'
  | [] => rfl
  | (a, b) :: rest => by
    by_cases hak : a = k
    · subst hak
      simp [List.lookup_cons, beq_false_of_ne h, lookup_map_overwrite a v k' h rest]
    · by_cases hka : k' = a
      · simp [List.lookup_cons, hak, hka]
      · simp [List.lookup_cons, hak, beq_false_of_ne hka, lookup_map_overwrite k v k' h rest]

/-- Appending a `(k, v)` entry leaves lookups of other keys unchanged
(append case of `dictSet`). -/
theorem lookup_append_single (k v k' : String) (h : k' ≠ k) :
    ∀ m : List (String × String), (m ++ [(k, v)]).lookup k' = m.lookup k'
  | [] => by
    simp [List.lookup_cons, beq_false_of_ne h]
  | (a, b) :: rest => by
    by_cases hka : k' = a
    · simp [List.lookup_cons, hka]
    · simp [List.lookup_cons, beq_false_of_ne hka, lookup_append_single k v k' h rest]

/-- Lemma: `dictSet` changes only the assigned key. -/
theorem lookup_dictSet_ne (m : List (String × String)) (k v k' : String) (h : k' ≠ k) :
    (dictSet m k v).lookup k' = m.lookup k' := by
  unfold dictSet
  split
  · exact lookup_map_overwrite k v k' h m
  · exact lookup_append_single k v k' h m

/-- Recording node entries never creates a key outside their names. -/
theorem lookup_idsAfter_notin (backend : GhCall → RResult) (k : String) :
    ∀ (entries : List (String × GhCall)) (ids : List (String × String)),
      k ∉ entries.map Prod.fst →
      (idsAfter backend entries ids).lookup k = ids.lookup k
  | [], _, _ => rfl
  | (n, g) :: rest, ids, h => by
    have hk : k ≠ n ∧ k ∉ rest.map Prod.fst := by
      simpa using h
    unfold idsAfter
    rw [List.foldl_cons]
    have := lookup_idsAfter_notin backend k rest (dictSet ids n (bid backend g)) hk.2
    unfold idsAfter at this
    rw [this, lookup_dictSet_ne _ _ _ _ hk.1]

/-- The node entry names are exactly the workflow's node names. -/
theorem nodeEntries_names (w : Workflow) : (nodeEntries w).map Prod.fst = nodeNames w := by
  have h1 : Prod.fst ∘ paramEntry = (Prod.fst : String × WParam → String) :=
    funext fun p => rfl
  have h2 : Prod.fst ∘ compEntry = (Prod.fst : String × WComponent → String) :=
    funext fun p => rfl
  have h3 : Prod.fst ∘ scriptEntry = (Prod.fst : String × WScript → String) :=
    funext fun p => rfl
  simp [nodeEntries, nodeNames, List.map_append, List.map_map, h1, h2, h3]

/-! ### All-success behaviour of the materialization phases -/

/-- Parameter loop under an all-success backend: one call per entry, ids
recorded in order. -/
theorem materializeParams_allOk (backend : GhCall → RResult)
    (hok : ∀ g, (backend g).result ≠ "error")
    (hid : ∀ g, ∃ c, (backend g).component_id = some c)
    (l : List (String × WParam)) : ∀ ids,
    materializeParams backend l ids =
      (l.map paramCall, .ok (idsAfter backend (l.map paramEntry) ids)) := by
  induction l with
  | nil => intro ids; rfl
  | cons p rest ih =>
    intro ids
    obtain ⟨name, info⟩ := p
    obtain ⟨c, hc⟩ := hid (paramCall (name, info))
    have hbid : bid backend (paramCall (name, info)) = c := by simp [bid, hc]
    simp only [materializeParams, List.map_cons, idsAfter, List.foldl_cons]
    simp only [paramCall, paramEntry] at hc hbid ⊢
    rw [if_neg (hok _)]
    simp only [hc]
    rw [ih]
    simp [idsAfter, hbid]

/-- Component loop under an all-success backend. -/
theorem materializeComponents_allOk (backend : GhCall → RResult)
    (hok : ∀ g, (backend g).result ≠ "error")
    (hid : ∀ g, ∃ c, (backend g).component_id = some c)
    (l : List (String × WComponent)) : ∀ ids,
    materializeComponents backend l ids =
      (l.map compCall, .ok (idsAfter backend (l.map compEntry) ids)) := by
  induction l with
  | nil => intro ids; rfl
  | cons p rest ih =>
    intro ids
    obtain ⟨name, info⟩ := p
    obtain ⟨c, hc⟩ := hid (compCall (name, info))
    have hbid : bid backend (compCall (name, info)) = c := by simp [bid, hc]
    simp only [materializeComponents, List.map_cons, idsAfter, List.foldl_cons]
    simp only [compCall, compEntry] at hc hbid ⊢
    rw [if_neg (hok _)]
    simp only [hc]
    rw [ih]
    simp [idsAfter, hbid]

/-- Script loop under an all-success backend. -/
theorem materializeScripts_allOk (backend : GhCall → RResult)
    (hok : ∀ g, (backend g).result ≠ "error")
    (hid : ∀ g, ∃ c, (backend g).component_id = some c)
    (l : List (String × WScript)) : ∀ ids,
    materializeScripts backend l ids =
      (l.map scriptCall, .ok (idsAfter backend (l.map scriptEntry) ids)) := by
  induction l with
  | nil => intro ids; rfl
  | cons p rest ih =>
    intro ids
    obtain ⟨name, info⟩ := p
    obtain ⟨c, hc⟩ := hid (scriptCall (name, info))
    have hbid : bid backend (scriptCall (name, info)) = c := by simp [bid, hc]
    simp only [materializeScripts, List.map_cons, idsAfter, List.foldl_cons]
    simp only [scriptCall, scriptEntry] at hc hbid ⊢
    rw [if_neg (hok _)]
    simp only [hc]
    rw [ih]
    simp [idsAfter, hbid]

/-- Connection loop under an all-success backend and dot-shaped endpoint
strings: exactly the resolvable connections are issued, the rest skipped,
and nothing raises. -/
theorem materializeConnections_allOk (backend : GhCall → RResult)
    (hok : ∀ g, (backend g).result ≠ "error")
    (ids : List (String × String)) (cs : List WConnection)
    (hwf : ∀ c ∈ cs, 2 ≤ (pySplit '.' c.cfrom).length ∧ 2 ≤ (pySplit '.' c.cto).length) :
    materializeConnections backend ids cs = (cs.filterMap (resolveCall ids), none) := by
  induction cs with
  | nil => rfl
  | cons c rest ih =>
    have hwfc := hwf c (List.mem_cons_self c rest)
    have hwfr : ∀ x ∈ rest, 2 ≤ (pySplit '.' x.cfrom).length ∧ 2 ≤ (pySplit '.' x.cto).length :=
      fun x hx => hwf x (List.mem_cons_of_mem _ hx)
    simp only [materializeConnections, List.filterMap_cons]
    by_cases hf :
        (isFalsy (ids.lookup ((pySplit '.' c.cfrom).getD 0 "")) ||
          isFalsy (ids.lookup ((pySplit '.' c.cto).getD 0 ""))) = true
    · rw [if_pos hf, ih hwfr]
      have hres : resolveCall ids c = none := by
        unfold resolveCall
        simp only [hf, if_pos]
      rw [hres]
    · rw [if_neg hf]
      have hlen : ¬ ((decide ((pySplit '.' c.cfrom).length < 2) ||
          decide ((pySplit '.' c.cto).length < 2)) = true) := by
        simp only [Bool.or_eq_true, decide_eq_true_eq, not_or, Nat.not_lt]
        exact hwfc
      rw [if_neg hlen, if_neg (hok _), ih hwfr]
      have hres : resolveCall ids c =
          some (.connectComponents ((ids.lookup ((pySplit '.' c.cfrom).getD 0 "")).getD "")
            ((pySplit '.' c.cfrom).getD 1 "")
            ((ids.lookup ((pySplit '.' c.cto).getD 0 "")).getD "")
            ((pySplit '.' c.cto).getD 1 "")) := by
        unfold resolveCall
        simp only [hf, if_neg, Bool.false_eq_true, ite_false]
      rw [hres]

/-- C5: under a backend whose calls all succeed and return component ids,
materializing a workflow (with `"Node.Param"`-shaped connection entries,
as the builder emits) one of whose connections references a node name
absent from the workflow completes without raising and returns the
success message; the backend receives the calls for all parameter,
component and script nodes and exactly the resolvable connections — the
dangling connection resolves to no call, so only it is skipped. -/
theorem C5_unresolved_connection_skipped (backend : GhCall → RResult)
    (description : String) (w : Workflow) (out_file : Option String)
    (hok : ∀ g, (backend g).result ≠ "error")
    (hid : ∀ g, ∃ c, (backend g).component_id = some c)
    (hwf : ∀ c ∈ w.connections,
      2 ≤ (pySplit '.' c.cfrom).length ∧ 2 ≤ (pySplit '.' c.cto).length)
    (c : WConnection) (hc : c ∈ w.connections)
    (hdangling : ((pySplit '.' c.cfrom).getD 0 "") ∉ nodeNames w) :
    (materializeWorkflow backend description w out_file).2 =
      .ret (successMsg description (idsAfter backend (nodeEntries w) []).length
        w.parameters.length out_file) ∧
    (materializeWorkflow backend description w out_file).1 =
      w.parameters.map paramCall ++ w.components.map compCall ++ w.scripts.map scriptCall ++
        w.connections.filterMap (resolveCall (idsAfter backend (nodeEntries w) [])) ++
        [GhCall.runDefinition none false none] ++
        (if (out_file.getD "") = "" then [] else [GhCall.runDefinition none true out_file]) ∧
    resolveCall (idsAfter backend (nodeEntries w) []) c = none := by
  have hids3 : idsAfter backend (w.scripts.map scriptEntry)
      (idsAfter backend (w.components.map compEntry)
        (idsAfter backend (w.parameters.map paramEntry) [])) =
      idsAfter backend (nodeEntries w) [] := by
    simp [nodeEntries, idsAfter, List.foldl_append]
  have hres : resolveCall (idsAfter backend (nodeEntries w) []) c = none := by
    have hnames : ((pySplit '.' c.cfrom).getD 0 "") ∉ (nodeEntries w).map Prod.fst := by
      rw [nodeEntries_names]
      exact hdangling
    have hl : (idsAfter backend (nodeEntries w) []).lookup
        ((pySplit '.' c.cfrom).getD 0 "") = none :=
      lookup_idsAfter_notin backend _ (nodeEntries w) [] hnames
    unfold resolveCall
    dsimp only
    rw [hl]
    simp [isFalsy]
  have hconn := materializeConnections_allOk backend hok
    (idsAfter backend (w.scripts.map scriptEntry)
      (idsAfter backend (w.components.map compEntry)
        (idsAfter backend (w.parameters.map paramEntry) []))) w.connections hwf
  have hM : materializeWorkflow backend description w out_file =
      (w.parameters.map paramCall ++ w.components.map compCall ++ w.scripts.map scriptCall ++
        w.connections.filterMap (resolveCall (idsAfter backend (nodeEntries w) [])) ++
        [GhCall.runDefinition none false none] ++
        (if (out_file.getD "") = "" then [] else [GhCall.runDefinition none true out_file]),
       .ret (successMsg description (idsAfter backend (nodeEntries w) []).length
         w.parameters.length out_file)) := by
    unfold materializeWorkflow
    rw [materializeParams_allOk backend hok hid]
    dsimp only
    rw [materializeComponents_allOk backend hok hid]
    dsimp only
    rw [materializeScripts_allOk backend hok hid]
    dsimp only
    rw [hconn]
    dsimp only
    rw [hids3, if_neg (hok _)]
    by_cases hsave : (out_file.getD "") = ""
    · rw [if_pos hsave, if_pos hsave]
      simp [List.append_assoc]
    · rw [if_neg hsave, if_neg hsave, if_neg (hok _)]
  rw [hM]
  exact ⟨rfl, rfl, hres⟩

/-- C5 witness: the theorem at a concrete two-connection workflow whose
second connection references the nonexistent node `Ghost`, under a
concrete all-success backend. -/
theorem C5_witness :
    (materializeWorkflow okBackend "a box" danglingWorkflow none).2 =
      .ret (successMsg "a box" (idsAfter okBackend (nodeEntries danglingWorkflow) []).length
        danglingWorkflow.parameters.length none) ∧
    (materializeWorkflow okBackend "a box" danglingWorkflow none).1 =
      danglingWorkflow.parameters.map paramCall ++
        danglingWorkflow.components.map compCall ++
        danglingWorkflow.scripts.map scriptCall ++
        danglingWorkflow.connections.filterMap
          (resolveCall (idsAfter okBackend (nodeEntries danglingWorkflow) [])) ++
        [GhCall.runDefinition none false none] ++
        (if ((none : Option String).getD "") = "" then []
          else [GhCall.runDefinition none true none]) ∧
    resolveCall (idsAfter okBackend (nodeEntries danglingWorkflow) [])
      { cfrom := "Ghost.output", cto := "Box.Y Size" } = none :=
  C5_unresolved_connection_skipped okBackend "a box" danglingWorkflow none
    (fun g => by simp [okBackend])
    (fun g => ⟨"cid", rfl⟩)
    (by decide)
    { cfrom := "Ghost.output", cto := "Box.Y Size" }
    (by decide)
    (by decide)

/-! ### Fail-fast behaviour of the materialization phases -/

/-- Parameter loop under an arbitrary backend with well-formed envelopes:
either every entry's call succeeds, or the loop stops at its first
backend error, its trace ending at the failing call, with the phase's
prefixed message. -/
theorem materializeParams_spec (backend : GhCall → RResult)
    (hwfE : ∀ g, (backend g).result = "error" → ∃ e, (backend g).error = some e)
    (hwfI : ∀ g, (backend g).result ≠ "error" → ∃ c, (backend g).component_id = some c)
    (l : List (String × WParam)) : ∀ ids,
    (∃ ids2, materializeParams backend l ids = (l.map paramCall, .ok ids2) ∧
      ∀ g ∈ l.map paramCall, (backend g).result ≠ "error") ∨
    (∃ t0 g e, materializeParams backend l ids =
        (t0 ++ [g], .error (.ret ("Error creating parameter component: " ++ e))) ∧
      (∀ g0 ∈ t0, (backend g0).result ≠ "error") ∧
      (backend g).result = "error" ∧ (backend g).error = some e) := by
  induction l with
  | nil => intro ids; exact .inl ⟨ids, rfl, by simp⟩
  | cons p rest ih =>
    intro ids
    obtain ⟨name, info⟩ := p
    by_cases hE : (backend (paramCall (name, info))).result = "error"
    · obtain ⟨e, he⟩ := hwfE _ hE
      refine .inr ⟨[], paramCall (name, info), e, ?_, by simp, hE, he⟩
      simp only [paramCall] at hE he ⊢
      simp only [materializeParams, hE, he]
      rfl
    · obtain ⟨c, hc⟩ := hwfI _ hE
      rcases ih (dictSet ids name c) with ⟨ids2, hrec, hall⟩ | ⟨t0, g, e, hrec, hall, hgE, hge⟩
      · refine .inl ⟨ids2, ?_, ?_⟩
        · simp only [paramCall] at hE hc
          simp only [materializeParams, if_neg hE, hc, hrec, List.map_cons, paramCall]
        · intro g hg
          rcases List.mem_cons.mp hg with h1 | h2
          · rw [h1]; exact hE
          · exact hall g h2
      · refine .inr ⟨paramCall (name, info) :: t0, g, e, ?_, ?_, hgE, hge⟩
        · simp only [paramCall] at hE hc
          simp only [materializeParams, if_neg hE, hc, hrec, List.cons_append, paramCall]
        · intro g0 hg0
          rcases List.mem_cons.mp hg0 with h1 | h2
          · rw [h1]; exact hE
          · exact hall g0 h2

/-- Component loop: same fail-fast dichotomy with its own message. -/
theorem materializeComponents_spec (backend : GhCall → RResult)
    (hwfE : ∀ g, (backend g).result = "error" → ∃ e, (backend g).error = some e)
    (hwfI : ∀ g, (backend g).result ≠ "error" → ∃ c, (backend g).component_id = some c)
    (l : List (String × WComponent)) : ∀ ids,
    (∃ ids2, materializeComponents backend l ids = (l.map compCall, .ok ids2) ∧
      ∀ g ∈ l.map compCall, (backend g).result ≠ "error") ∨
    (∃ t0 g e, materializeComponents backend l ids =
        (t0 ++ [g], .error (.ret ("Error creating component: " ++ e))) ∧
      (∀ g0 ∈ t0, (backend g0).result ≠ "error") ∧
      (backend g).result = "error" ∧ (backend g).error = some e) := by
  induction l with
  | nil => intro ids; exact .inl ⟨ids, rfl, by simp⟩
  | cons p rest ih =>
    intro ids
    obtain ⟨name, info⟩ := p
    by_cases hE : (backend (compCall (name, info))).result = "error"
    · obtain ⟨e, he⟩ := hwfE _ hE
      refine .inr ⟨[], compCall (name, info), e, ?_, by simp, hE, he⟩
      simp only [compCall] at hE he ⊢
      simp only [materializeComponents, hE, he]
      rfl
    · obtain ⟨c, hc⟩ := hwfI _ hE
      rcases ih (dictSet ids name c) with ⟨ids2, hrec, hall⟩ | ⟨t0, g, e, hrec, hall, hgE, hge⟩
      · refine .inl ⟨ids2, ?_, ?_⟩
        · simp only [compCall] at hE hc
          simp only [materializeComponents, if_neg hE, hc, hrec, List.map_cons, compCall]
        · intro g hg
          rcases List.mem_cons.mp hg with h1 | h2
          · rw [h1]; exact hE
          · exact hall g h2
      · refine .inr ⟨compCall (name, info) :: t0, g, e, ?_, ?_, hgE, hge⟩
        · simp only [compCall] at hE hc
          simp only [materializeComponents, if_neg hE, hc, hrec, List.cons_append, compCall]
        · intro g0 hg0
          rcases List.mem_cons.mp hg0 with h1 | h2
          · rw [h1]; exact hE
          · exact hall g0 h2

/-- Script loop: same fail-fast dichotomy with its own message. -/
theorem materializeScripts_spec (backend : GhCall → RResult)
    (hwfE : ∀ g, (backend g).result = "error" → ∃ e, (backend g).error = some e)
    (hwfI : ∀ g, (backend g).result ≠ "error" → ∃ c, (backend g).component_id = some c)
    (l : List (String × WScript)) : ∀ ids,
    (∃ ids2, materializeScripts backend l ids = (l.map scriptCall, .ok ids2) ∧
      ∀ g ∈ l.map scriptCall, (backend g).result ≠ "error") ∨
    (∃ t0 g e, materializeScripts backend l ids =
        (t0 ++ [g], .error (.ret ("Error creating script component: " ++ e))) ∧
      (∀ g0 ∈ t0, (backend g0).result ≠ "error") ∧
      (backend g).result = "error" ∧ (backend g).error = some e) := by
  induction l with
  | nil => intro ids; exact .inl ⟨ids, rfl, by simp⟩
  | cons p rest ih =>
    intro ids
    obtain ⟨name, info⟩ := p
    by_cases hE : (backend (scriptCall (name, info))).result = "error"
    · obtain ⟨e, he⟩ := hwfE _ hE
      refine .inr ⟨[], scriptCall (name, info), e, ?_, by simp, hE, he⟩
      simp only [scriptCall] at hE he ⊢
      simp only [materializeScripts, hE, he]
      rfl
    · obtain ⟨c, hc⟩ := hwfI _ hE
      rcases ih (dictSet ids name c) with ⟨ids2, hrec, hall⟩ | ⟨t0, g, e, hrec, hall, hgE, hge⟩
      · refine .inl ⟨ids2, ?_, ?_⟩
        · simp only [scriptCall] at hE hc
          simp only [materializeScripts, if_neg hE, hc, hrec, List.map_cons, scriptCall]
        · intro g hg
          rcases List.mem_cons.mp hg with h1 | h2
          · rw [h1]; exact hE
          · exact hall g h2
      · refine .inr ⟨scriptCall (name, info) :: t0, g, e, ?_, ?_, hgE, hge⟩
        · simp only [scriptCall] at hE hc
          simp only [materializeScripts, if_neg hE, hc, hrec, List.cons_append, scriptCall]
        · intro g0 hg0
          rcases List.mem_cons.mp hg0 with h1 | h2
          · rw [h1]; exact hE
          · exact hall g0 h2

/-- Connection loop under dot-shaped endpoints: either every resolvable
connection's call succeeds (unresolvable ones skipped), or the loop stops
at its first backend error with the connecting-phase message. -/
theorem materializeConnections_spec (backend : GhCall → RResult)
    (hwfE : ∀ g, (backend g).result = "error" → ∃ e, (backend g).error = some e)
    (ids : List (String × String)) (cs : List WConnection)
    (hwf : ∀ c ∈ cs, 2 ≤ (pySplit '.' c.cfrom).length ∧ 2 ≤ (pySplit '.' c.cto).length) :
    (materializeConnections backend ids cs = (cs.filterMap (resolveCall ids), none) ∧
      ∀ g ∈ cs.filterMap (resolveCall ids), (backend g).result ≠ "error") ∨
    (∃ t0 g e, materializeConnections backend ids cs =
        (t0 ++ [g], some (.ret ("Error connecting components: " ++ e))) ∧
      (∀ g0 ∈ t0, (backend g0).result ≠ "error") ∧
      (backend g).result = "error" ∧ (backend g).error = some e) := by
  induction cs with
  | nil => exact .inl ⟨rfl, by simp⟩
  | cons c rest ih =>
    have hwfc := hwf c (List.mem_cons_self c rest)
    have hwfr : ∀ x ∈ rest, 2 ≤ (pySplit '.' x.cfrom).length ∧ 2 ≤ (pySplit '.' x.cto).length :=
      fun x hx => hwf x (List.mem_cons_of_mem _ hx)
    by_cases hf :
        (isFalsy (ids.lookup ((pySplit '.' c.cfrom).getD 0 "")) ||
          isFalsy (ids.lookup ((pySplit '.' c.cto).getD 0 ""))) = true
    · have hres : resolveCall ids c = none := by
        unfold resolveCall
        simp only [hf, if_pos]
      rcases ih hwfr with ⟨hrec, hall⟩ | ⟨t0, g, e, hrec, hall, hgE, hge⟩
      · refine .inl ⟨?_, ?_⟩
        · simp only [materializeConnections, if_pos hf, hrec, List.filterMap_cons, hres]
        · simpa [List.filterMap_cons, hres] using hall
      · refine .inr ⟨t0, g, e, ?_, hall, hgE, hge⟩
        simp only [materializeConnections, if_pos hf, hrec]
    · have hlen : ¬ ((decide ((pySplit '.' c.cfrom).length < 2) ||
          decide ((pySplit '.' c.cto).length < 2)) = true) := by
        simp only [Bool.or_eq_true, decide_eq_true_eq, not_or, Nat.not_lt]
        exact hwfc
      have hres : resolveCall ids c =
          some (.connectComponents ((ids.lookup ((pySplit '.' c.cfrom).getD 0 "")).getD "")
            ((pySplit '.' c.cfrom).getD 1 "")
            ((ids.lookup ((pySplit '.' c.cto).getD 0 "")).getD "")
            ((pySplit '.' c.cto).getD 1 "")) := by
        unfold resolveCall
        simp only [hf, if_neg, Bool.false_eq_true, ite_false]
      by_cases hE : (backend (.connectComponents
          ((ids.lookup ((pySplit '.' c.cfrom).getD 0 "")).getD "")
          ((pySplit '.' c.cfrom).getD 1 "")
          ((ids.lookup ((pySplit '.' c.cto).getD 0 "")).getD "")
          ((pySplit '.' c.cto).getD 1 ""))).result = "error"
      · obtain ⟨e, he⟩ := hwfE _ hE
        refine .inr ⟨[], _, e, ?_, by simp, hE, he⟩
        simp only [materializeConnections, if_neg hf, if_neg hlen, hE, he]
        rfl
      · rcases ih hwfr with ⟨hrec, hall⟩ | ⟨t0, g, e, hrec, hall, hgE, hge⟩
        · refine .inl ⟨?_, ?_⟩
          · simp only [materializeConnections, if_neg hf, if_neg hlen, if_neg hE, hrec,
              List.filterMap_cons, hres]
          · intro g hg
            rw [List.filterMap_cons, hres] at hg
            rcases List.mem_cons.mp hg with h1 | h2
            · rw [h1]; exact hE
            · exact hall g h2
        · refine .inr ⟨GhCall.connectComponents
            ((ids.lookup ((pySplit '.' c.cfrom).getD 0 "")).getD "")
            ((pySplit '.' c.cfrom).getD 1 "")
            ((ids.lookup ((pySplit '.' c.cto).getD 0 "")).getD "")
            ((pySplit '.' c.cto).getD 1 "") :: t0, g, e, ?_, ?_, hgE, hge⟩
          · simp only [materializeConnections, if_neg hf, if_neg hlen, if_neg hE, hrec,
              List.cons_append]
          · intro g0 hg0
            rcases List.mem_cons.mp hg0 with h1 | h2
            · rw [h1]; exact hE
            · exact hall g0 h2

/-- C6: whenever some backend call of a materialization returns an error
envelope, the materialization stops at the first such call — its call
trace ends at that call, every earlier call succeeded, no later call is
made — and the tool returns that backend error verbatim behind one of the
fixed phase prefixes; the trace shows no deletion or rollback calls, the
already-created nodes stay. -/
theorem C6_fail_fast_no_rollback (backend : GhCall → RResult) (description : String)
    (w : Workflow) (out_file : Option String)
    (hwfE : ∀ g, (backend g).result = "error" → ∃ e, (backend g).error = some e)
    (hwfI : ∀ g, (backend g).result ≠ "error" → ∃ c, (backend g).component_id = some c)
    (hwf : ∀ c ∈ w.connections,
      2 ≤ (pySplit '.' c.cfrom).length ∧ 2 ≤ (pySplit '.' c.cto).length)
    (hfail : ∃ g ∈ (materializeWorkflow backend description w out_file).1,
      (backend g).result = "error") :
    ∃ t0 g e, (materializeWorkflow backend description w out_file).1 = t0 ++ [g] ∧
      (∀ g0 ∈ t0, (backend g0).result ≠ "error") ∧
      (backend g).result = "error" ∧ (backend g).error = some e ∧
      ∃ p ∈ errPrefixTexts,
        (materializeWorkflow backend description w out_file).2 = .ret (p ++ e) := by
  rcases materializeParams_spec backend hwfE hwfI w.parameters [] with
    ⟨ids1, h1, hall1⟩ | ⟨t0, g, e, h1, hall1, hgE, hge⟩
  · rcases materializeComponents_spec backend hwfE hwfI w.components ids1 with
      ⟨ids2, h2, hall2⟩ | ⟨t0, g, e, h2, hall2, hgE, hge⟩
    · rcases materializeScripts_spec backend hwfE hwfI w.scripts ids2 with
        ⟨ids3, h3, hall3⟩ | ⟨t0, g, e, h3, hall3, hgE, hge⟩
      · rcases materializeConnections_spec backend hwfE ids3 w.connections hwf with
          ⟨h4, hall4⟩ | ⟨t0, g, e, h4, hall4, hgE, hge⟩
        · by_cases hrE : (backend (GhCall.runDefinition none false none)).result = "error"
          · obtain ⟨e, he⟩ := hwfE _ hrE
            have hMW : materializeWorkflow backend description w out_file =
                (w.parameters.map paramCall ++ w.components.map compCall ++
                  w.scripts.map scriptCall ++ w.connections.filterMap (resolveCall ids3) ++
                  [GhCall.runDefinition none false none],
                 .ret ("Error running definition: " ++ e)) := by
              unfold materializeWorkflow
              rw [h1]; dsimp only
              rw [h2]; dsimp only
              rw [h3]; dsimp only
              rw [h4]; dsimp only
              rw [if_pos hrE, he]
            refine ⟨w.parameters.map paramCall ++ w.components.map compCall ++
              w.scripts.map scriptCall ++ w.connections.filterMap (resolveCall ids3),
              GhCall.runDefinition none false none, e, by rw [hMW], ?_, hrE, he,
              "Error running definition: ", by simp [errPrefixTexts], by rw [hMW]⟩
            intro g0 hg0
            rcases List.mem_append.mp hg0 with hg0 | hg0
            rcases List.mem_append.mp hg0 with hg0 | hg0
            rcases List.mem_append.mp hg0 with hg0 | hg0
            · exact hall1 g0 hg0
            · exact hall2 g0 hg0
            · exact hall3 g0 hg0
            · exact hall4 g0 hg0
          · by_cases hsave : (out_file.getD "") = ""
            · have hMW : materializeWorkflow backend description w out_file =
                  (w.parameters.map paramCall ++ w.components.map compCall ++
                    w.scripts.map scriptCall ++ w.connections.filterMap (resolveCall ids3) ++
                    [GhCall.runDefinition none false none],
                   .ret (successMsg description ids3.length w.parameters.length out_file)) := by
                unfold materializeWorkflow
                rw [h1]; dsimp only
                rw [h2]; dsimp only
                rw [h3]; dsimp only
                rw [h4]; dsimp only
                rw [if_neg hrE, if_pos hsave]
              exfalso
              obtain ⟨g, hgmem, hgE⟩ := hfail
              rw [hMW] at hgmem
              rcases List.mem_append.mp hgmem with hg | hg
              · rcases List.mem_append.mp hg with hg | hg
                · rcases List.mem_append.mp hg with hg | hg
                  · rcases List.mem_append.mp hg with hg | hg
                    · exact hall1 g hg hgE
                    · exact hall2 g hg hgE
                  · exact hall3 g hg hgE
                · exact hall4 g hg hgE
              · rw [List.mem_singleton.mp hg] at hgE
                exact hrE hgE
            · by_cases hsE : (backend (GhCall.runDefinition none true out_file)).result = "error"
              · obtain ⟨e, he⟩ := hwfE _ hsE
                have hMW : materializeWorkflow backend description w out_file =
                    (w.parameters.map paramCall ++ w.components.map compCall ++
                      w.scripts.map scriptCall ++ w.connections.filterMap (resolveCall ids3) ++
                      [GhCall.runDefinition none false none] ++
                      [GhCall.runDefinition none true out_file],
                     .ret ("Error saving definition: " ++ e)) := by
                  unfold materializeWorkflow
                  rw [h1]; dsimp only
                  rw [h2]; dsimp only
                  rw [h3]; dsimp only
                  rw [h4]; dsimp only
                  rw [if_neg hrE, if_neg hsave, if_pos hsE, he]
                refine ⟨w.parameters.map paramCall ++ w.components.map compCall ++
                  w.scripts.map scriptCall ++ w.connections.filterMap (resolveCall ids3) ++
                  [GhCall.runDefinition none false none],
                  GhCall.runDefinition none true out_file, e, by rw [hMW], ?_, hsE, he,
                  "Error saving definition: ", by simp [errPrefixTexts], by rw [hMW]⟩
                intro g0 hg0
                rcases List.mem_append.mp hg0 with hg0 | hg0
                · rcases List.mem_append.mp hg0 with hg0 | hg0
                  · rcases List.mem_append.mp hg0 with hg0 | hg0
                    · rcases List.mem_append.mp hg0 with hg0 | hg0
                      · exact hall1 g0 hg0
                      · exact hall2 g0 hg0
                    · exact hall3 g0 hg0
                  · exact hall4 g0 hg0
                · rw [List.mem_singleton.mp hg0]
                  exact hrE
              · have hMW : materializeWorkflow backend description w out_file =
                    (w.parameters.map paramCall ++ w.components.map compCall ++
                      w.scripts.map scriptCall ++ w.connections.filterMap (resolveCall ids3) ++
                      [GhCall.runDefinition none false none] ++
                      [GhCall.runDefinition none true out_file],
                     .ret (successMsg description ids3.length w.parameters.length out_file)) := by
                  unfold materializeWorkflow
                  rw [h1]; dsimp only
                  rw [h2]; dsimp only
                  rw [h3]; dsimp only
                  rw [h4]; dsimp only
                  rw [if_neg hrE, if_neg hsave, if_neg hsE]
                exfalso
                obtain ⟨g, hgmem, hgE⟩ := hfail
                rw [hMW] at hgmem
                rcases List.mem_append.mp hgmem with hg | hg
                · rcases List.mem_append.mp hg with hg | hg
                  · rcases List.mem_append.mp hg with hg | hg
                    · rcases List.mem_append.mp hg with hg | hg
                      · rcases List.mem_append.mp hg with hg | hg
                        · exact hall1 g hg hgE
                        · exact hall2 g hg hgE
                      · exact hall3 g hg hgE
                    · exact hall4 g hg hgE
                  · rw [List.mem_singleton.mp hg] at hgE
                    exact hrE hgE
                · rw [List.mem_singleton.mp hg] at hgE
                  exact hsE hgE
        · have hMW : materializeWorkflow backend description w out_file =
              (w.parameters.map paramCall ++ w.components.map compCall ++
                w.scripts.map scriptCall ++ (t0 ++ [g]),
               .ret ("Error connecting components: " ++ e)) := by
            unfold materializeWorkflow
            rw [h1]; dsimp only
            rw [h2]; dsimp only
            rw [h3]; dsimp only
            rw [h4]
          refine ⟨w.parameters.map paramCall ++ w.components.map compCall ++
            w.scripts.map scriptCall ++ t0, g, e, ?_, ?_, hgE, hge,
            "Error connecting components: ", by simp [errPrefixTexts], by rw [hMW]⟩
          · rw [hMW]
            simp [List.append_assoc]
          · intro g0 hg0
            rcases List.mem_append.mp hg0 with hg0 | hg0
            rcases List.mem_append.mp hg0 with hg0 | hg0
            rcases List.mem_append.mp hg0 with hg0 | hg0
            · exact hall1 g0 hg0
            · exact hall2 g0 hg0
            · exact hall3 g0 hg0
            · exact hall4 g0 hg0
      · have hMW : materializeWorkflow backend description w out_file =
            (w.parameters.map paramCall ++ w.components.map compCall ++ (t0 ++ [g]),
             .ret ("Error creating script component: " ++ e)) := by
          unfold materializeWorkflow
          rw [h1]; dsimp only
          rw [h2]; dsimp only
          rw [h3]
        refine ⟨w.parameters.map paramCall ++ w.components.map compCall ++ t0, g, e,
          ?_, ?_, hgE, hge,
          "Error creating script component: ", by simp [errPrefixTexts], by rw [hMW]⟩
        · rw [hMW]
          simp [List.append_assoc]
        · intro g0 hg0
          rcases List.mem_append.mp hg0 with hg0 | hg0
          rcases List.mem_append.mp hg0 with hg0 | hg0
          · exact hall1 g0 hg0
          · exact hall2 g0 hg0
          · exact hall3 g0 hg0
    · have hMW : materializeWorkflow backend description w out_file =
          (w.parameters.map paramCall ++ (t0 ++ [g]),
           .ret ("Error creating component: " ++ e)) := by
        unfold materializeWorkflow
        rw [h1]; dsimp only
        rw [h2]
      refine ⟨w.parameters.map paramCall ++ t0, g, e, ?_, ?_, hgE, hge,
        "Error creating component: ", by simp [errPrefixTexts], by rw [hMW]⟩
      · rw [hMW]
        simp [List.append_assoc]
      · intro g0 hg0
        rcases List.mem_append.mp hg0 with hg0 | hg0
        · exact hall1 g0 hg0
        · exact hall2 g0 hg0
  · have hMW : materializeWorkflow backend description w out_file =
        (t0 ++ [g], .ret ("Error creating parameter component: " ++ e)) := by
      unfold materializeWorkflow
      rw [h1]
    exact ⟨t0, g, e, by rw [hMW], hall1, hgE, hge,
      "Error creating parameter component: ", by simp [errPrefixTexts], by rw [hMW]⟩

/-- C6 witness: the fail-fast theorem at a concrete workflow under a
backend that errors on the `run_gh_definition` call. -/
theorem C6_witness :
    ∃ t0 g e, (materializeWorkflow failingBackend "a box" danglingWorkflow none).1 =
        t0 ++ [g] ∧
      (∀ g0 ∈ t0, (failingBackend g0).result ≠ "error") ∧
      (failingBackend g).result = "error" ∧ (failingBackend g).error = some e ∧
      ∃ p ∈ errPrefixTexts,
        (materializeWorkflow failingBackend "a box" danglingWorkflow none).2 =
          .ret (p ++ e) :=
  C6_fail_fast_no_rollback failingBackend "a box" danglingWorkflow none
    (by intro g h; cases g <;>
      first
        | exact ⟨"No active Grasshopper canvas", rfl⟩
        | simp [failingBackend] at h)
    (by intro g h; cases g <;>
      first
        | exact ⟨"cid", rfl⟩
        | exact absurd rfl h)
    (by decide)
    (by decide)

end GHMcp
